import Mathlib

/-!
Shallow embedding of the yasmin repository's `ActionState`
(src/yasmin_ros/yasmin_ros/action_state.py) and of the demo state machine
(src/yasmin_demos/yasmin_demos/yasmin_demo.py), with theorems checking the
natural-language specification against the code.

Modelling conventions:
* Python exceptions are `Except PyError`; an uncaught exception is `.error e`.
* Goal, feedback and result payloads are opaque and modelled as `Nat`;
  transport goal handles are modelled as `Nat` identifiers.
* A Python attribute that may never have been assigned is an outer `Option`:
  `none` means "unassigned", so reading it raises `AttributeError`.
* Side effects on the transport / threading primitives (sending a goal,
  cancelling a handle, acquiring the lock, setting the completion event)
  are recorded in an explicit `Effect` trace returned by each operation.
-/

/-- Python exceptions that can arise in the modelled code paths. -/
inductive PyError where
  | attributeError
  | keyError (k : String)
  | valueError (msg : String)
  | userExc (code : Nat)
deriving DecidableEq, Repr

/-- Observable side effects of the embedded operations, in program order:
transport calls, the goal-handle lock, and the completion event. -/
inductive Effect where
  | waitForServer
  | clearEvent
  | sendGoal (g : Nat)
  | acquireLock
  | releaseLock
  | registerResultCallback
  | storeResult
  | storeStatus
  | setEvent
  | waitEvent
  | cancelGoal (h : Nat)
deriving DecidableEq, Repr

/-- A blackboard is a mutable string-keyed store; values in the claims at
hand are strings. Functional update by prepending (lookup is first match). -/
abbrev Blackboard := List (String × String)

/-- `blackboard[key] = value` (dict overwrite, modelled by shadowing). -/
def bbSet (bb : Blackboard) (k v : String) : Blackboard := (k, v) :: bb

/-- `blackboard[key]`: `KeyError` when the key is absent. -/
def bbGet (bb : Blackboard) (k : String) : Except PyError String :=
  match bb.lookup k with
  | some v => .ok v
  | none => .error (.keyError k)

/-- Modelled from the spec: the basic outcome tokens imported from
`yasmin_ros.basic_outcomes`, a module of this repository that is not under
src/. The spec (§4.4, §7) names them as the outcome tokens for success,
abort, cancellation and availability timeout. -/
def SUCCEED : String := "succeeded"

/-- Modelled from the spec: see `SUCCEED`. -/
def ABORT : String := "aborted"

/-- Modelled from the spec: see `SUCCEED`. -/
def CANCEL : String := "canceled"

/-- Modelled from the spec: see `SUCCEED`. -/
def TIMEOUT : String := "timeout"

namespace GoalStatus

/-- `action_msgs.msg.GoalStatus.STATUS_SUCCEEDED` (ROS 2 constant). -/
def STATUS_SUCCEEDED : Nat := 4

/-- `action_msgs.msg.GoalStatus.STATUS_CANCELED` (ROS 2 constant). -/
def STATUS_CANCELED : Nat := 5

/-- `action_msgs.msg.GoalStatus.STATUS_ABORTED` (ROS 2 constant). -/
def STATUS_ABORTED : Nat := 6

end GoalStatus

/-- Python truthiness of the `timeout: float = None` argument:
`None` and `0.0` are falsy, any other number is truthy
(`if self._timeout:` at action_state.py line 103). -/
def timeoutTruthy : Option ℚ → Bool
  | none => false
  | some x => x ≠ 0

/-- The mutable state of one `ActionState` instance
(action_state.py lines 53-68).

`goal_handle` is `Option (Option Nat)`: the class body only *annotates*
`_goal_handle: ClientGoalHandle` without assigning it, so the attribute does
not exist until `_goal_response_callback` first assigns it; the outer `none`
is that unassigned state (reading it raises `AttributeError`), and the inner
value is what was assigned (`future.result()`, a goal handle).

The lock `_goal_handle_lock` and the event `_action_done_event` are NOT
fields here: in the source they are class attributes initialized once in the
class body (lines 57 and 63) and never assigned on instances, so they live
at class level; see `ActionState.class_goal_handle_lock` below. -/
structure ActionState where
  action_name : String
  timeout : Option ℚ
  create_goal_handler : Blackboard → Except PyError Nat
  result_handler : Option (Blackboard → Nat → Except PyError String)
  feedback_handler : Option (Blackboard → Nat → Except PyError Unit)
  outcomes : List String
  goal_handle : Option (Option Nat)
  action_result : Option Nat
  action_status : Option Nat
  canceled : Bool

/-- `_action_done_event: Event = Event()` (line 57): the initializer runs
once, when the class body is executed; the resulting event object is a class
attribute. We give that single object the identity `0`. -/
def ActionState.class_action_done_event : Nat := 0

/-- `_goal_handle_lock: RLock = RLock()` (line 63): the initializer runs
once, when the class body is executed; the resulting lock object is a class
attribute. We give that single object the identity `1`. -/
def ActionState.class_goal_handle_lock : Nat := 1

/-- Python attribute lookup for `self._goal_handle_lock`: no method of the
class ever assigns this attribute on an instance, so the lookup always falls
through to the class attribute. -/
def ActionState.goal_handle_lock_of (_ : ActionState) : Nat :=
  ActionState.class_goal_handle_lock

/-- Python attribute lookup for `self._action_done_event`: no method of the
class ever assigns this attribute on an instance, so the lookup always falls
through to the class attribute. -/
def ActionState.action_done_event_of (_ : ActionState) : Nat :=
  ActionState.class_action_done_event

/-- `ActionState.__init__` (lines 70-128). Builds the outcome list
`[SUCCEED, ABORT, CANCEL]`, appends `TIMEOUT` when the timeout argument is
truthy, appends the caller's extra outcomes when that argument is truthy,
and raises `ValueError` when no goal-construction handler was given.
The creation of the ROS node and `ActionClient` (external collaborators)
is not modelled. `_goal_handle` is never assigned here (outer `none`). -/
def ActionState.init (action_name : String)
    (create_goal_handler : Option (Blackboard → Except PyError Nat))
    (outcomes : Option (List String))
    (result_handler : Option (Blackboard → Nat → Except PyError String))
    (feedback_handler : Option (Blackboard → Nat → Except PyError Unit))
    (timeout : Option ℚ) : Except PyError ActionState :=
  let outcomes1 := if timeoutTruthy timeout then
      [SUCCEED, ABORT, CANCEL] ++ [TIMEOUT]
    else [SUCCEED, ABORT, CANCEL]
  let outcomes2 := match outcomes with
    | some extra => if extra.isEmpty then outcomes1 else outcomes1 ++ extra
    | none => outcomes1
  match create_goal_handler with
  | none => .error (.valueError "create_goal_handler is needed")
  | some h =>
      .ok { action_name := action_name
            timeout := timeout
            create_goal_handler := h
            result_handler := result_handler
            feedback_handler := feedback_handler
            outcomes := outcomes2
            goal_handle := none
            action_result := none
            action_status := none
            canceled := false }

/-- `ActionState.cancel_state` (lines 130-140): under the goal-handle lock,
read `self._goal_handle`; reading the attribute before it was ever assigned
raises `AttributeError` (the lock is released on unwind). If it was assigned
and is not `None`, forward `cancel_goal()` to the transport for that handle.
Then `super().cancel_state()` — modelled from the spec (§4.2: the base
`State.cancel` sets a cancellation flag), the base class not being under
src/. -/
def ActionState.cancel_state (s : ActionState) :
    Except PyError (ActionState × List Effect) :=
  match s.goal_handle with
  | none => .error .attributeError
  | some (some handle) =>
      .ok ({ s with canceled := true },
           [Effect.acquireLock, Effect.cancelGoal handle, Effect.releaseLock])
  | some none =>
      .ok ({ s with canceled := true },
           [Effect.acquireLock, Effect.releaseLock])

/-- `ActionState._goal_response_callback` (lines 199-211): under the
goal-handle lock, record `future.result()` (the accepted goal handle `h`)
in `self._goal_handle` and register the result callback. Nothing else: in
particular no cancellation is forwarded and no cancel-requested flag is
consulted. -/
def ActionState.goal_response_callback (s : ActionState) (h : Nat) :
    ActionState × List Effect :=
  ({ s with goal_handle := some (some h) },
   [Effect.acquireLock, Effect.registerResultCallback, Effect.releaseLock])

/-- `ActionState._get_result_callback` (lines 213-224): store
`future.result().result` and `future.result().status`, then set the
completion event. The source takes no lock here. -/
def ActionState.get_result_callback (s : ActionState) (res status : Nat) :
    ActionState × List Effect :=
  ({ s with action_result := some res, action_status := some status },
   [Effect.storeResult, Effect.storeStatus, Effect.setEvent])

/-- The inner `feedback_handler` closure defined inside `execute`
(lines 173-175): forwards to the user feedback handler when one is set,
with no try/except — a user exception propagates to the caller of the
closure (the transport's executor thread). -/
def ActionState.feedback_wrapper (s : ActionState) (bb : Blackboard)
    (fb : Nat) : Except PyError Unit :=
  match s.feedback_handler with
  | some fh => fh bb fb
  | none => .ok ()

/-- The transport environment of one `execute` call: the result of
`wait_for_server`, the handle the acceptance callback will receive, and the
payload and status the result callback will receive. -/
structure Transport where
  server_available : Bool
  accepted_handle : Nat
  result_value : Nat
  result_status : Nat

/-- `ActionState.execute` (lines 142-197) under the canonical schedule in
which the acceptance and result callbacks run before the event wait returns:
1. `goal = self._create_goal_handler(blackboard)` — uncaught, may raise;
2. `wait_for_server(timeout)`; when unavailable return `TIMEOUT` at once
   (before `send_goal_async`);
3. clear the event, send the goal, let `_goal_response_callback` and then
   `_get_result_callback` run, wait on the event;
4. map `self._action_status` to the outcome (lines 185-197), calling the
   user result handler — uncaught, may raise — on `STATUS_SUCCEEDED`. -/
def ActionState.execute (t : Transport) (s : ActionState) (bb : Blackboard) :
    Except PyError (ActionState × String × List Effect) :=
  match s.create_goal_handler bb with
  | .error e => .error e
  | .ok goal =>
      if t.server_available = false then
        .ok (s, TIMEOUT, [Effect.waitForServer])
      else
        let acc := s.goal_response_callback t.accepted_handle
        let res := acc.1.get_result_callback t.result_value t.result_status
        let s2 := res.1
        let effs := [Effect.waitForServer, Effect.clearEvent,
                     Effect.sendGoal goal] ++ acc.2 ++ res.2
                    ++ [Effect.waitEvent]
        match s2.action_status with
        | some st =>
            if st = GoalStatus.STATUS_CANCELED then .ok (s2, CANCEL, effs)
            else if st = GoalStatus.STATUS_ABORTED then .ok (s2, ABORT, effs)
            else if st = GoalStatus.STATUS_SUCCEEDED then
              match s2.result_handler with
              | some rh =>
                  match rh bb (s2.action_result.getD 0) with
                  | .ok o => .ok (s2, o, effs)
                  | .error e => .error e
              | none => .ok (s2, SUCCEED, effs)
            else .ok (s2, ABORT, effs)
        | none => .ok (s2, ABORT, effs)

/-- Projection of an `execute` run onto the returned outcome
(`none` when an exception escaped). -/
def outcomeOf (r : Except PyError (ActionState × String × List Effect)) :
    Option String :=
  match r with
  | .ok x => some x.2.1
  | .error _ => none

/-! ## The demo state machine (src/yasmin_demos/yasmin_demos/yasmin_demo.py) -/

/-- `FooState` (yasmin_demo.py lines 31-45): outcomes
`["outcome1", "outcome2"]`, a private `counter` field initialized to 0 in
`__init__` and mutated only by `execute`. -/
structure FooState where
  counter : Nat
deriving DecidableEq, Repr

/-- `FooState.__init__`: `self.counter = 0`. -/
def FooState.init : FooState := { counter := 0 }

/-- The outcome set `["outcome1", "outcome2"]` declared by `FooState`. -/
def FooState.outcomes : List String := ["outcome1", "outcome2"]

/-- `FooState.execute` (lines 36-45): when `counter < 3`, increment it,
write `f"Counter: {self.counter}"` (the incremented value) to
`blackboard["foo_str"]` and return `"outcome1"`; otherwise return
`"outcome2"` leaving counter and blackboard untouched. The `time.sleep(3)`
and logging are external effects, not modelled. -/
def FooState.execute (s : FooState) (bb : Blackboard) :
    FooState × Blackboard × String :=
  if s.counter < 3 then
    ({ counter := s.counter + 1 },
     bbSet bb "foo_str" ("Counter: " ++ toString (s.counter + 1)),
     "outcome1")
  else
    (s, bb, "outcome2")

/-- The outcome set `["outcome3"]` declared by `BarState`. -/
def BarState.outcomes : List String := ["outcome3"]

/-- `BarState.execute` (lines 53-58): logs `blackboard["foo_str"]` (a
`KeyError` if absent) and returns `"outcome3"`. `BarState` has no fields. -/
def BarState.execute (bb : Blackboard) : Except PyError String :=
  match bbGet bb "foo_str" with
  | .ok _ => .ok "outcome3"
  | .error e => .error e

/-- The two state names registered in the demo machine (lines 76-90). -/
inductive DemoName where
  | FOO
  | BAR
deriving DecidableEq, Repr

/-- The demo machine's transition table (lines 76-90):
`FOO.outcome1 → BAR`, `FOO.outcome2 → outcome4` (terminal, the machine's
only declared outcome), `BAR.outcome3 → FOO`. `.inl` is a successor state,
`.inr` a terminal machine outcome. -/
def demoTransition : DemoName → String → Option (DemoName ⊕ String)
  | .FOO, "outcome1" => some (.inl .BAR)
  | .FOO, "outcome2" => some (.inr "outcome4")
  | .BAR, "outcome3" => some (.inl .FOO)
  | _, _ => none

/-- Modelled from the spec: the `StateMachine` execution loop of §4.3
(`yasmin.StateMachine` is code of this repository not under src/),
specialized to the demo machine: start at the entry state, call the active
state's `execute`, look the returned outcome up in the transition table,
stop with a terminal outcome of the machine or continue with the successor
state. `fuel` bounds the recursion (the source loop is unbounded; `none`
means fuel ran out), `tr` accumulates the executed-state trace, and the
single mutable `FooState` instance is threaded through. An outcome with no
transition entry is the spec's ConfigurationError, modelled as a
`ValueError`. -/
def runDemo (fuel : Nat) (cur : DemoName) (foo : FooState) (bb : Blackboard)
    (tr : List DemoName) :
    Except PyError (Option (String × List DemoName)) :=
  match fuel with
  | 0 => .ok none
  | fuel + 1 =>
      match cur with
      | .FOO =>
          let r := foo.execute bb
          let tr2 := tr ++ [DemoName.FOO]
          match demoTransition .FOO r.2.2 with
          | some (.inl nxt) => runDemo fuel nxt r.1 r.2.1 tr2
          | some (.inr term) => .ok (some (term, tr2))
          | none => .error (.valueError "outcome not in transition table")
      | .BAR =>
          match BarState.execute bb with
          | .error e => .error e
          | .ok o =>
              let tr2 := tr ++ [DemoName.BAR]
              match demoTransition .BAR o with
              | some (.inl nxt) => runDemo fuel nxt foo bb tr2
              | some (.inr term) => .ok (some (term, tr2))
              | none => .error (.valueError "outcome not in transition table")

/-- The state of the single `FooState` instance after `n` calls of its
`execute` on that same instance (the blackboard argument does not influence
the counter). -/
def fooCalls : Nat → FooState
  | 0 => FooState.init
  | n + 1 => ((fooCalls n).execute []).1

/-! ## Concrete fixtures -/

/-- A trivial goal-construction handler (returns payload 0). -/
def trivGoal : Blackboard → Except PyError Nat := fun _ => .ok 0

/-- Inert fallback state used only to destructure `Except` fixtures. -/
def dummyState : ActionState :=
  { action_name := ""
    timeout := none
    create_goal_handler := trivGoal
    result_handler := none
    feedback_handler := none
    outcomes := []
    goal_handle := none
    action_result := none
    action_status := none
    canceled := false }

/-- Unwrap a constructor run that is known to succeed. -/
def getOk (e : Except PyError ActionState) : ActionState :=
  match e with
  | .ok s => s
  | .error _ => dummyState

/-- A freshly constructed instance: `ActionState("action_a", ...)`. -/
def instA : ActionState :=
  getOk (ActionState.init "action_a" (some trivGoal) none none none none)

/-- A second, distinct freshly constructed instance. -/
def instB : ActionState :=
  getOk (ActionState.init "action_b" (some trivGoal) none none none none)

/-- `instA` during a repeat `execute`, at the point after `send_goal_async`
for the new goal but before its acceptance callback: `_goal_handle` still
holds the stale handle `3` recorded for the previous goal. -/
def staleState : ActionState := { instA with goal_handle := some (some 3) }

/-- The `(state, effects)` result of calling `cancel_state` on
`staleState` before the new goal's acceptance callback. -/
def staleCancelRun : ActionState × List Effect :=
  match staleState.cancel_state with
  | .ok p => p
  | .error _ => (dummyState, [])

/-- The acceptance callback then runs for the new goal, delivering the new
handle `7`, starting from the state left by the cancel call. -/
def staleAcceptRun : ActionState × List Effect :=
  staleCancelRun.1.goal_response_callback 7

/-- Instance whose goal-construction handler raises. -/
def raisingGoalState : ActionState :=
  getOk (ActionState.init "boom"
    (some (fun _ => .error (.userExc 42))) none none none none)

/-- A result handler that raises a user exception. -/
def resultRaiser : Blackboard → Nat → Except PyError String :=
  fun _ _ => .error (.userExc 7)

/-- Instance whose result handler raises. -/
def raisingResultState : ActionState :=
  getOk (ActionState.init "boom2" (some trivGoal) none
    (some resultRaiser) none none)

/-- A feedback handler that raises a user exception. -/
def fbRaiser : Blackboard → Nat → Except PyError Unit :=
  fun _ _ => .error (.userExc 5)

/-- Instance whose feedback handler raises. -/
def fbState : ActionState :=
  getOk (ActionState.init "fb" (some trivGoal) none none
    (some fbRaiser) none)

/-- Transport that accepts and succeeds (`STATUS_SUCCEEDED`). -/
def tSucc : Transport :=
  { server_available := true, accepted_handle := 9,
    result_value := 11, result_status := 4 }

/-- Transport that accepts and ends canceled (`STATUS_CANCELED`). -/
def tCanc : Transport :=
  { server_available := true, accepted_handle := 9,
    result_value := 11, result_status := 5 }

/-- Unavailable transport: `wait_for_server` returns `False`. -/
def tUnavail : Transport :=
  { server_available := false, accepted_handle := 9,
    result_value := 11, result_status := 4 }

/-- Instance constructed with a 2-time-unit availability timeout. -/
def instTimeout : ActionState :=
  getOk (ActionState.init "nav" (some trivGoal) none none none (some 2))

/-- Instance constructed with `timeout=None` and the caller-supplied extra
outcome list `[TIMEOUT]`. -/
def timeoutExtraState : ActionState :=
  getOk (ActionState.init "x" (some trivGoal) (some [TIMEOUT])
    none none none)

/-- Instance used as a witness for the outcome-list structure. -/
def wState : ActionState :=
  getOk (ActionState.init "w" (some trivGoal) (some ["my_extra"])
    none none (some 2))

/-! ## Theorems -/

/-- C2 (code_bug, evaluation at the failing input): on a freshly
constructed `ActionState` on which no goal was ever submitted,
`cancel_state()` raises `AttributeError` instead of being the no-op the
claim (and the method's own `is not None` guard and docstring) intend:
the class body only annotates `_goal_handle` without initializing it, so
`self._goal_handle` does not exist until the acceptance callback first
assigns it. -/
theorem cancel_state_fresh_raises_attribute_error :
    instA.cancel_state = .error PyError.attributeError := rfl

/-- C4 (counterexample): two distinct `ActionState` instances — different
construction arguments, different `_action_name` — nevertheless share one
and the same goal-handle lock object and one and the same completion event
object, because `_goal_handle_lock = RLock()` and
`_action_done_event = Event()` are evaluated once in the class body (class
attributes), refuting the claim that they are scoped to a single `execute`
call of a single instance. -/
theorem lock_and_event_shared_cex :
    instA.action_name = "action_a" ∧ instB.action_name = "action_b" ∧
    instA.goal_handle_lock_of = instB.goal_handle_lock_of ∧
    instA.action_done_event_of = instB.action_done_event_of :=
  ⟨rfl, rfl, rfl, rfl⟩

/-- C4 (amended): the mutex serializing access to the goal handle and the
completion event used to block `execute` are class attributes created once
at class-definition time; every `ActionState` instance, and hence every
`execute` call, shares the same lock object and the same event object. -/
theorem lock_and_event_are_class_level (s1 s2 : ActionState) :
    s1.goal_handle_lock_of = s2.goal_handle_lock_of ∧
    s1.action_done_event_of = s2.action_done_event_of :=
  ⟨rfl, rfl⟩

/-- C1 (counterexample): cancellation requested before the acceptance
callback has recorded the handle IS lost. Concretely: during a repeat
`execute` the stale handle `3` of the previous goal is still recorded;
`cancel_state()` runs before the new goal's acceptance callback and
forwards a cancel only for stale handle `3`; the acceptance callback then
records the new handle `7` — and the combined effect trace contains no
`cancel_goal` for handle `7`, so the accepted operation is never canceled,
refuting the claim. (On a first `execute` the same schedule is even worse:
`cancel_state` raises `AttributeError`.) -/
theorem cancel_before_acceptance_not_forwarded_cex :
    staleCancelRun.2 =
      [Effect.acquireLock, Effect.cancelGoal 3, Effect.releaseLock] ∧
    staleAcceptRun.1.goal_handle = some (some 7) ∧
    Effect.cancelGoal 7 ∉ staleCancelRun.2 ++ staleAcceptRun.2 :=
  ⟨rfl, rfl, by decide⟩

/-- C1 (amended): `_goal_response_callback` only records the accepted
handle and registers the result callback; it consults no cancel-requested
flag and never forwards a cancellation to the transport, so a
`cancel_state()` issued before the handle is recorded does not cancel the
goal once accepted (it is lost for that goal). -/
theorem goal_response_callback_never_cancels (s : ActionState) (h : Nat) :
    (∀ h2, Effect.cancelGoal h2 ∉ (s.goal_response_callback h).2) ∧
    (s.goal_response_callback h).1.goal_handle = some (some h) := by
  constructor
  · intro h2
    simp [ActionState.goal_response_callback]
  · rfl

/-- C7 (counterexample): `_get_result_callback` stores the result and the
status and then sets the completion event, but it does so WITHOUT taking
the goal-handle lock — its effect trace contains no lock acquisition —
refuting the "under the handle lock" part of the claim. -/
theorem result_callback_no_lock_cex :
    (instA.get_result_callback 11 4).2 =
      [Effect.storeResult, Effect.storeStatus, Effect.setEvent] ∧
    Effect.acquireLock ∉ (instA.get_result_callback 11 4).2 :=
  ⟨rfl, by decide⟩

/-- C7 (amended): in the terminal result callback the result payload and
the status are stored strictly before the completion event is set (so the
values `execute` reads after its wait are the ones this callback wrote),
but not under the handle lock: the callback takes no lock at all. -/
theorem result_callback_stores_before_signal (s : ActionState)
    (res st : Nat) :
    (s.get_result_callback res st).1.action_result = some res ∧
    (s.get_result_callback res st).1.action_status = some st ∧
    (s.get_result_callback res st).2.indexOf Effect.storeResult <
      (s.get_result_callback res st).2.indexOf Effect.setEvent ∧
    (s.get_result_callback res st).2.indexOf Effect.storeStatus <
      (s.get_result_callback res st).2.indexOf Effect.setEvent ∧
    Effect.acquireLock ∉ (s.get_result_callback res st).2 := by
  have htr : (s.get_result_callback res st).2 =
      [Effect.storeResult, Effect.storeStatus, Effect.setEvent] := rfl
  refine ⟨rfl, rfl, ?_, ?_, ?_⟩ <;> rw [htr] <;> decide

/-- C3 (counterexample): an exception raised by a user-supplied handler is
NOT caught and NOT translated to an `ABORT` completion. Concretely: with a
goal-construction handler that raises `userExc 42`, `execute` propagates
that exception (there is no try/except around `self._create_goal_handler`
at line 158); with a result handler that raises `userExc 7` on a succeeded
goal, `execute` propagates that exception too (line 193), in both cases
instead of returning the `ABORT` outcome. -/
theorem user_exception_propagates_cex :
    raisingGoalState.execute tSucc [] = .error (PyError.userExc 42) ∧
    raisingResultState.execute tSucc [] = .error (PyError.userExc 7) :=
  ⟨rfl, rfl⟩

/-- C3 (amended): exceptions raised by the user-supplied goal-construction
or result-mapping functions propagate out of `execute` uncaught (no
`ABORT` translation), and an exception raised by the user feedback
function propagates out of the internal feedback wrapper into the
transport's callback context — no callback-boundary catch exists. -/
theorem user_exceptions_propagate_uncaught (t : Transport)
    (s : ActionState) (bb : Blackboard) (e : PyError) :
    (s.create_goal_handler bb = .error e → s.execute t bb = .error e) ∧
    (∀ fh v, s.feedback_handler = some fh → fh bb v = .error e →
      s.feedback_wrapper bb v = .error e) ∧
    (∀ g rh, s.create_goal_handler bb = .ok g →
      t.server_available = true →
      t.result_status = GoalStatus.STATUS_SUCCEEDED →
      s.result_handler = some rh → rh bb t.result_value = .error e →
      s.execute t bb = .error e) := by
  refine ⟨?_, ?_, ?_⟩
  · intro hg
    simp [ActionState.execute, hg]
  · intro fh v hf hrun
    simp [ActionState.feedback_wrapper, hf, hrun]
  · intro g rh hg hav hst hrh hrun
    simp [ActionState.execute, hg, hav, ActionState.goal_response_callback,
      ActionState.get_result_callback, hst, hrh, hrun,
      GoalStatus.STATUS_SUCCEEDED, GoalStatus.STATUS_CANCELED,
      GoalStatus.STATUS_ABORTED]

/-- C3 (amended, witness): the amended behavior at concrete inputs —
goal-handler exception 42 propagates from `execute`, feedback exception 5
propagates from the wrapper, result-handler exception 7 propagates from
`execute`. -/
theorem user_exceptions_propagate_uncaught_witness :
    (raisingGoalState.create_goal_handler [] = .error (PyError.userExc 42)
      ∧ raisingGoalState.execute tSucc [] = .error (PyError.userExc 42)) ∧
    (fbState.feedback_handler = some fbRaiser ∧
      fbState.feedback_wrapper [] 1 = .error (PyError.userExc 5)) ∧
    (raisingResultState.execute tSucc [] = .error (PyError.userExc 7)) := by
  refine ⟨⟨rfl, ?_⟩, ⟨rfl, ?_⟩, ?_⟩
  · exact (user_exceptions_propagate_uncaught tSucc raisingGoalState []
      (.userExc 42)).1 rfl
  · exact (user_exceptions_propagate_uncaught tSucc fbState []
      (.userExc 5)).2.1 fbRaiser 1 rfl rfl
  · exact (user_exceptions_propagate_uncaught tSucc raisingResultState []
      (.userExc 7)).2.2 0 resultRaiser rfl rfl rfl rfl rfl

/-- C5 (confirmed): when `execute` reaches completion of a submitted goal
(goal construction succeeded, server available), the outcome is determined
by the stored transport status exactly as claimed: `STATUS_CANCELED` (5)
yields `CANCEL`; `STATUS_ABORTED` (6) yields `ABORT`; `STATUS_SUCCEEDED`
(4) yields the result handler's outcome when one was provided and
`SUCCEED` otherwise; every other status yields `ABORT`. -/
theorem execute_status_outcome_mapping (t : Transport) (s : ActionState)
    (bb : Blackboard) (g : Nat)
    (hg : s.create_goal_handler bb = .ok g)
    (hav : t.server_available = true) :
    (t.result_status = GoalStatus.STATUS_CANCELED →
      outcomeOf (s.execute t bb) = some CANCEL) ∧
    (t.result_status = GoalStatus.STATUS_ABORTED →
      outcomeOf (s.execute t bb) = some ABORT) ∧
    (t.result_status = GoalStatus.STATUS_SUCCEEDED →
      s.result_handler = none →
      outcomeOf (s.execute t bb) = some SUCCEED) ∧
    (∀ rh o, t.result_status = GoalStatus.STATUS_SUCCEEDED →
      s.result_handler = some rh → rh bb t.result_value = .ok o →
      outcomeOf (s.execute t bb) = some o) ∧
    (t.result_status ≠ GoalStatus.STATUS_CANCELED →
      t.result_status ≠ GoalStatus.STATUS_ABORTED →
      t.result_status ≠ GoalStatus.STATUS_SUCCEEDED →
      outcomeOf (s.execute t bb) = some ABORT) := by
  refine ⟨?_, ?_, ?_, ?_, ?_⟩
  · intro hst
    simp [ActionState.execute, hg, hav, ActionState.goal_response_callback,
      ActionState.get_result_callback, hst, outcomeOf,
      GoalStatus.STATUS_SUCCEEDED, GoalStatus.STATUS_CANCELED,
      GoalStatus.STATUS_ABORTED]
  · intro hst
    simp [ActionState.execute, hg, hav, ActionState.goal_response_callback,
      ActionState.get_result_callback, hst, outcomeOf,
      GoalStatus.STATUS_SUCCEEDED, GoalStatus.STATUS_CANCELED,
      GoalStatus.STATUS_ABORTED]
  · intro hst hrh
    simp [ActionState.execute, hg, hav, ActionState.goal_response_callback,
      ActionState.get_result_callback, hst, hrh, outcomeOf,
      GoalStatus.STATUS_SUCCEEDED, GoalStatus.STATUS_CANCELED,
      GoalStatus.STATUS_ABORTED]
  · intro rh o hst hrh hrun
    simp [ActionState.execute, hg, hav, ActionState.goal_response_callback,
      ActionState.get_result_callback, hst, hrh, hrun, outcomeOf,
      GoalStatus.STATUS_SUCCEEDED, GoalStatus.STATUS_CANCELED,
      GoalStatus.STATUS_ABORTED]
  · intro h5 h6 h4
    simp only [GoalStatus.STATUS_CANCELED, GoalStatus.STATUS_ABORTED,
      GoalStatus.STATUS_SUCCEEDED] at h5 h6 h4
    simp [ActionState.execute, hg, hav, ActionState.goal_response_callback,
      ActionState.get_result_callback, outcomeOf, h5, h6, h4,
      GoalStatus.STATUS_SUCCEEDED, GoalStatus.STATUS_CANCELED,
      GoalStatus.STATUS_ABORTED]

/-- C5 (witness): at a concrete instance and a transport completing with
`STATUS_CANCELED`, the hypotheses hold and `execute` returns `CANCEL`. -/
theorem execute_status_outcome_mapping_witness :
    instA.create_goal_handler [] = .ok 0 ∧
    tCanc.server_available = true ∧
    outcomeOf (instA.execute tCanc []) = some CANCEL :=
  ⟨rfl, rfl,
    (execute_status_outcome_mapping tCanc instA [] 0 rfl rfl).1 rfl⟩

/-- C6 (confirmed): with the goal constructed and the action server not
becoming available within the configured timeout, `execute` returns the
`TIMEOUT` outcome with the instance unchanged (in particular its
`_goal_handle` untouched: no operation handle is created), and its effect
trace is just the availability wait — it contains no `send_goal` call. -/
theorem execute_timeout_no_submit (t : Transport) (s : ActionState)
    (bb : Blackboard) (g : Nat)
    (hg : s.create_goal_handler bb = .ok g)
    (hna : t.server_available = false) :
    s.execute t bb = .ok (s, TIMEOUT, [Effect.waitForServer]) ∧
    (∀ g2, Effect.sendGoal g2 ∉ [Effect.waitForServer]) := by
  constructor
  · simp [ActionState.execute, hg, hna]
  · intro g2
    simp

/-- C6 (witness): a concrete instance with a 2-time-unit availability
timeout against an unavailable transport returns `TIMEOUT` without
submitting. -/
theorem execute_timeout_no_submit_witness :
    instTimeout.create_goal_handler [] = .ok 0 ∧
    tUnavail.server_available = false ∧
    (instTimeout.execute tUnavail [] =
        .ok (instTimeout, TIMEOUT, [Effect.waitForServer]) ∧
      ∀ g2, Effect.sendGoal g2 ∉ [Effect.waitForServer]) :=
  ⟨rfl, rfl, execute_timeout_no_submit tUnavail instTimeout [] 0 rfl rfl⟩

/-- C8 (confirmed, against the spec-modelled machine loop): running the
demo machine from entry state `FOO` with a fresh `FooState` (counter 0)
and an empty blackboard terminates with outcome `outcome4` after executing
the states in the order `FOO,BAR,FOO,BAR,FOO,BAR,FOO` — exactly 4 `FOO`
executions and 3 `BAR` executions. -/
theorem demo_run_trace :
    runDemo 20 DemoName.FOO FooState.init [] [] =
      .ok (some ("outcome4",
        [DemoName.FOO, DemoName.BAR, DemoName.FOO, DemoName.BAR,
         DemoName.FOO, DemoName.BAR, DemoName.FOO])) ∧
    [DemoName.FOO, DemoName.BAR, DemoName.FOO, DemoName.BAR,
     DemoName.FOO, DemoName.BAR, DemoName.FOO].count DemoName.FOO = 4 ∧
    [DemoName.FOO, DemoName.BAR, DemoName.FOO, DemoName.BAR,
     DemoName.FOO, DemoName.BAR, DemoName.FOO].count DemoName.BAR = 3 :=
  ⟨rfl, rfl, rfl⟩

/-- Counter of the single `FooState` instance after `n` `execute` calls:
it is incremented on each of the first three calls and then stays at 3. -/
theorem fooCalls_counter (n : Nat) : (fooCalls n).counter = min n 3 := by
  induction n with
  | zero => rfl
  | succ n ih =>
      have hstep : fooCalls (n + 1) = ((fooCalls n).execute []).1 := rfl
      rw [hstep]
      by_cases h : (fooCalls n).counter < 3
      · simp [FooState.execute, h]
        rw [ih] at h ⊢
        omega
      · simp [FooState.execute, h]
        rw [ih] at h ⊢
        omega

/-- C9 (confirmed): on one and the same `FooState` instance the private
counter persists across repeated `execute` invocations and is never reset:
after `n` calls it equals `min n 3`; the call number `n+1` (on any
blackboard) returns `outcome1` and increments the counter when `n < 3`,
and returns `outcome2` leaving the counter at 3 otherwise. -/
theorem foo_counter_persists (n : Nat) (bb : Blackboard) :
    (fooCalls n).counter = min n 3 ∧
    ((fooCalls n).execute bb).2.2 =
      (if n < 3 then "outcome1" else "outcome2") ∧
    ((fooCalls n).execute bb).1.counter = min (n + 1) 3 := by
  have hc := fooCalls_counter n
  refine ⟨hc, ?_, ?_⟩
  · by_cases h : n < 3
    · have h2 : (fooCalls n).counter < 3 := by rw [hc]; omega
      simp [FooState.execute, h2, h]
    · have h2 : ¬ (fooCalls n).counter < 3 := by rw [hc]; omega
      simp [FooState.execute, h2, h]
  · by_cases h : n < 3
    · have h2 : (fooCalls n).counter < 3 := by rw [hc]; omega
      simp [FooState.execute, h2]
      rw [hc]
      omega
    · have h2 : ¬ (fooCalls n).counter < 3 := by rw [hc]; omega
      simp [FooState.execute, h2]
      rw [hc]
      omega

/-- C10 (counterexample): a successfully constructed `ActionState` whose
`timeout` argument is `None` (not truthy) but whose caller-supplied extra
outcomes are `[TIMEOUT]` does contain `TIMEOUT` in its declared outcome
list, refuting the "contains TIMEOUT exactly when the timeout argument is
truthy" part of the claim. -/
theorem outcomes_timeout_token_cex :
    timeoutExtraState.timeout = none ∧
    timeoutTruthy timeoutExtraState.timeout = false ∧
    TIMEOUT ∈ timeoutExtraState.outcomes := by
  refine ⟨rfl, rfl, ?_⟩
  have : timeoutExtraState.outcomes =
      [SUCCEED, ABORT, CANCEL] ++ [TIMEOUT] := rfl
  rw [this]
  simp

/-- C10 (amended): every successfully constructed `ActionState` declares
the outcome list `[SUCCEED, ABORT, CANCEL]`, followed by `TIMEOUT` when
the constructor's timeout argument is truthy (non-None and nonzero),
followed by the caller-supplied extra outcomes in order; hence it always
contains `SUCCEED`, `ABORT` and `CANCEL`, and it contains `TIMEOUT` iff
the timeout is truthy or the caller passed `TIMEOUT` among the extras. -/
theorem init_outcomes_structure (nm : String)
    (cg : Option (Blackboard → Except PyError Nat))
    (extra : Option (List String))
    (rh : Option (Blackboard → Nat → Except PyError String))
    (fh : Option (Blackboard → Nat → Except PyError Unit))
    (to2 : Option ℚ) (s : ActionState)
    (h : ActionState.init nm cg extra rh fh to2 = .ok s) :
    s.outcomes = ([SUCCEED, ABORT, CANCEL]
        ++ (if timeoutTruthy to2 then [TIMEOUT] else []))
        ++ extra.getD [] ∧
    SUCCEED ∈ s.outcomes ∧ ABORT ∈ s.outcomes ∧ CANCEL ∈ s.outcomes ∧
    (TIMEOUT ∈ s.outcomes ↔
      (timeoutTruthy to2 = true ∨ TIMEOUT ∈ extra.getD [])) := by
  have hTnotBase : TIMEOUT ∉ [SUCCEED, ABORT, CANCEL] := by decide
  cases cg with
  | none =>
      exact absurd h (by simp [ActionState.init])
  | some cgh =>
      have hs : s.outcomes = ([SUCCEED, ABORT, CANCEL]
          ++ (if timeoutTruthy to2 then [TIMEOUT] else []))
          ++ extra.getD [] := by
        simp only [ActionState.init, Except.ok.injEq] at h
        subst h
        cases extra with
        | none =>
            cases hto : timeoutTruthy to2 <;> simp [hto]
        | some ex =>
            cases ex with
            | nil =>
                cases hto : timeoutTruthy to2 <;> simp [hto]
            | cons a l =>
                cases hto : timeoutTruthy to2 <;> simp [hto]
      refine ⟨hs, ?_, ?_, ?_, ?_⟩
      · rw [hs]; simp
      · rw [hs]; simp
      · rw [hs]; simp
      · rw [hs]
        cases hto : timeoutTruthy to2 <;>
          simp_all [List.mem_append]

/-- C10 (amended, witness): at a concrete construction with a truthy
timeout of 2 and the extra outcome `"my_extra"`, the hypotheses hold and
the outcome list has the stated structure. -/
theorem init_outcomes_structure_witness :
    ActionState.init "w" (some trivGoal) (some ["my_extra"]) none none
        (some 2) = .ok wState ∧
    (wState.outcomes = ([SUCCEED, ABORT, CANCEL]
        ++ (if timeoutTruthy (some 2) then [TIMEOUT] else []))
        ++ (some ["my_extra"]).getD [] ∧
      SUCCEED ∈ wState.outcomes ∧ ABORT ∈ wState.outcomes ∧
      CANCEL ∈ wState.outcomes ∧
      (TIMEOUT ∈ wState.outcomes ↔
        (timeoutTruthy (some 2) = true ∨
          TIMEOUT ∈ ((some ["my_extra"] : Option (List String)).getD [])))) :=
  ⟨rfl, init_outcomes_structure "w" (some trivGoal) (some ["my_extra"])
    none none (some 2) wState rfl⟩
